import Mathlib

/-!
Verification of the sketch.io Flask application (`src/app.py`).

The Python source is shallowly embedded: bytes are `List Nat` (each `< 256`),
the two SQLite tables are Lean lists, request-derived inputs are explicit
arguments, and each route handler becomes a pure function from the request
data and the current store to an outcome together with the new store.
-/

namespace App

/-! ### Base64: model of Python's `base64.b64encode` / `base64.b64decode` -/

/-- The RFC 4648 base64 alphabet used by `base64.b64encode` / `b64decode`. -/
def b64Alphabet : List Char :=
  "ABCDEFGHIJKLMNOPQRSTUVWXYZabcdefghijklmnopqrstuvwxyz0123456789+/".data

def sextetToChar (n : Nat) : Char := b64Alphabet.getD n '='

def charToSextet (c : Char) : Option Nat := b64Alphabet.findIdx? (· == c)

def encGroup3 (b1 b2 b3 : Nat) : List Char :=
  let n := b1 * 65536 + b2 * 256 + b3
  [sextetToChar (n / 262144), sextetToChar (n / 4096 % 64),
   sextetToChar (n / 64 % 64), sextetToChar (n % 64)]

/-- RFC 4648 base64 encoding of a byte list, with `=` padding; models
`base64.b64encode(image_bytes)` (the result viewed as a character list). -/
def b64EncodeBytes : List Nat → List Char
  | b1 :: b2 :: b3 :: rest => encGroup3 b1 b2 b3 ++ b64EncodeBytes rest
  | [b1, b2] =>
    let n := b1 * 1024 + b2 * 4
    [sextetToChar (n / 4096), sextetToChar (n / 64 % 64), sextetToChar (n % 64), '=']
  | [b1] =>
    let n := b1 * 16
    [sextetToChar (n / 64), sextetToChar (n % 64), '=', '=']
  | [] => []

/-- `base64.b64encode(bs).decode("utf-8")` as a Lean `String`. -/
def b64encodeStr (bs : List Nat) : String := String.mk (b64EncodeBytes bs)

/-- Base64 decoding of a quad-aligned character list (padding handled on the
final quad).  `none` models `binascii.Error` raised by `base64.b64decode`
(in particular the classic `Incorrect padding` error when the number of
alphabet characters is not a multiple of four). -/
def decB64 : List Char → Option (List Nat)
  | [] => some []
  | c1 :: c2 :: c3 :: c4 :: rest =>
    match charToSextet c1, charToSextet c2 with
    | some s1, some s2 =>
      if c3 = '=' then
        if c4 = '=' then
          if rest = [] then some [(s1 * 64 + s2) / 16] else none
        else none
      else
        match charToSextet c3 with
        | some s3 =>
          if c4 = '=' then
            if rest = [] then
              some [(s1 * 4096 + s2 * 64 + s3) / 1024,
                    (s1 * 4096 + s2 * 64 + s3) / 4 % 256]
            else none
          else
            match charToSextet c4 with
            | some s4 =>
              match decB64 rest with
              | some bs =>
                some (((s1 * 262144 + s2 * 4096 + s3 * 64 + s4) / 65536) ::
                      ((s1 * 262144 + s2 * 4096 + s3 * 64 + s4) / 256 % 256) ::
                      ((s1 * 262144 + s2 * 4096 + s3 * 64 + s4) % 256) :: bs)
              | none => none
            | none => none
        | none => none
    | _, _ => none
  | _ => none

/-- Characters kept (not discarded) by Python's `base64.b64decode`. -/
def keepB64 (c : Char) : Bool := b64Alphabet.contains c || c == '='

/-- Model of Python `base64.b64decode(s)`: characters outside the base64
alphabet (other than `=`) are discarded, then the remaining characters are
decoded; `none` models a raised `binascii.Error`. -/
def pyB64Decode (s : String) : Option (List Nat) :=
  decB64 (s.data.filter keepB64)

theorem charToSextet_sextetToChar : ∀ n, n < 64 → charToSextet (sextetToChar n) = some n := by
  decide

theorem sextetToChar_ne_pad : ∀ n, n < 64 → sextetToChar n ≠ '=' := by
  decide

theorem contains_sextetToChar : ∀ n, n < 64 → b64Alphabet.contains (sextetToChar n) = true := by
  decide

theorem decB64_b64EncodeBytes :
    ∀ bs : List Nat, (∀ b ∈ bs, b < 256) → decB64 (b64EncodeBytes bs) = some bs
  | [], _ => rfl
  | [b1], h => by
    have hb1 : b1 < 256 := h b1 (by simp)
    have h1 : b1 * 16 / 64 < 64 := by omega
    have h2 : b1 * 16 % 64 < 64 := by omega
    have e1 := charToSextet_sextetToChar _ h1
    have e2 := charToSextet_sextetToChar _ h2
    simp only [b64EncodeBytes, decB64, e1, e2, if_true, Option.some.injEq, List.cons.injEq,
      and_true]
    omega
  | [b1, b2], h => by
    have hb1 : b1 < 256 := h b1 (by simp)
    have hb2 : b2 < 256 := h b2 (by simp)
    have h1 : (b1 * 1024 + b2 * 4) / 4096 < 64 := by omega
    have h2 : (b1 * 1024 + b2 * 4) / 64 % 64 < 64 := by omega
    have h3 : (b1 * 1024 + b2 * 4) % 64 < 64 := by omega
    have e1 := charToSextet_sextetToChar _ h1
    have e2 := charToSextet_sextetToChar _ h2
    have e3 := charToSextet_sextetToChar _ h3
    have ne3 := sextetToChar_ne_pad _ h3
    simp only [b64EncodeBytes, decB64, e1, e2, e3, if_neg ne3, if_true, Option.some.injEq,
      List.cons.injEq, and_true]
    constructor <;> omega
  | b1 :: b2 :: b3 :: rest, h => by
    have hb1 : b1 < 256 := h b1 (by simp)
    have hb2 : b2 < 256 := h b2 (by simp)
    have hb3 : b3 < 256 := h b3 (by simp)
    have ih := decB64_b64EncodeBytes rest (fun b hb => h b (by simp [hb]))
    have h1 : (b1 * 65536 + b2 * 256 + b3) / 262144 < 64 := by omega
    have h2 : (b1 * 65536 + b2 * 256 + b3) / 4096 % 64 < 64 := by omega
    have h3 : (b1 * 65536 + b2 * 256 + b3) / 64 % 64 < 64 := by omega
    have h4 : (b1 * 65536 + b2 * 256 + b3) % 64 < 64 := by omega
    have e1 := charToSextet_sextetToChar _ h1
    have e2 := charToSextet_sextetToChar _ h2
    have e3 := charToSextet_sextetToChar _ h3
    have e4 := charToSextet_sextetToChar _ h4
    have ne3 := sextetToChar_ne_pad _ h3
    have ne4 := sextetToChar_ne_pad _ h4
    simp only [b64EncodeBytes, encGroup3, List.cons_append, List.nil_append]
    simp only [decB64, e1, e2, e3, e4, if_neg ne3, if_neg ne4, ih]
    simp only [Option.some.injEq, List.cons.injEq, and_true]
    refine ⟨by omega, by omega, by omega⟩

theorem keepB64_sextetToChar : ∀ n, keepB64 (sextetToChar n) = true := by
  intro n
  by_cases hn : n < 64
  · unfold keepB64
    rw [contains_sextetToChar n hn]
    rfl
  · have hpad : sextetToChar n = '=' := by
      unfold sextetToChar
      apply List.getD_eq_default
      have hlen : b64Alphabet.length = 64 := by decide
      omega
    rw [hpad]
    decide

theorem keepB64_pad : keepB64 '=' = true := by decide

theorem filter_b64EncodeBytes : ∀ bs : List Nat,
    (b64EncodeBytes bs).filter keepB64 = b64EncodeBytes bs
  | [] => rfl
  | [b1] => by
    simp only [b64EncodeBytes, List.filter_cons, keepB64_sextetToChar, keepB64_pad, if_true,
      List.filter_nil]
  | [b1, b2] => by
    simp only [b64EncodeBytes, List.filter_cons, keepB64_sextetToChar, keepB64_pad, if_true,
      List.filter_nil]
  | b1 :: b2 :: b3 :: rest => by
    have ih := filter_b64EncodeBytes rest
    simp only [b64EncodeBytes, encGroup3, List.cons_append, List.nil_append, List.filter_cons,
      keepB64_sextetToChar, if_true, ih]

/-- Python base64 round-trip: `b64decode(b64encode(bs)) == bs` for byte input. -/
theorem pyB64Decode_b64encodeStr (bs : List Nat) (h : ∀ b ∈ bs, b < 256) :
    pyB64Decode (b64encodeStr bs) = some bs := by
  unfold pyB64Decode b64encodeStr
  rw [show (String.mk (b64EncodeBytes bs)).data = b64EncodeBytes bs from rfl]
  rw [filter_b64EncodeBytes]
  exact decB64_b64EncodeBytes bs h

/-! ### Python `str.strip()` -/

/-- The ASCII whitespace characters stripped by Python `str.strip()`
(space, tab, newline, carriage return, vertical tab, form feed). -/
def pyWhitespace (c : Char) : Bool :=
  c == ' ' || c == '\t' || c == '\n' || c == '\r' || c == Char.ofNat 11 || c == Char.ofNat 12

def pyStripList (l : List Char) : List Char :=
  ((l.dropWhile pyWhitespace).reverse.dropWhile pyWhitespace).reverse

/-- Model of Python `str.strip()` (ASCII whitespace). -/
def pyStrip (s : String) : String := String.mk (pyStripList s.data)

theorem head?_dropWhile_false {α : Type} {p : α → Bool} {l : List α} {c : α}
    (h : (l.dropWhile p).head? = some c) : p c = false := by
  have hm := List.head?_dropWhile_not p l
  rw [h] at hm
  exact hm

theorem getLast?_dropWhile {α : Type} {p : α → Bool} :
    ∀ l : List α, l.dropWhile p ≠ [] → (l.dropWhile p).getLast? = l.getLast?
  | [], h => absurd rfl h
  | a :: l, h => by
    cases hpa : p a with
    | true =>
      simp only [List.dropWhile_cons, hpa, if_true] at h ⊢
      rw [getLast?_dropWhile l h]
      cases l with
      | nil => simp at h
      | cons x xs => rw [List.getLast?_cons_cons]
    | false =>
      simp [List.dropWhile_cons, hpa]

/-- The first character of a stripped string is not whitespace. -/
theorem pyStripList_head? (l : List Char) (c : Char)
    (h : (pyStripList l).head? = some c) : pyWhitespace c = false := by
  unfold pyStripList at h
  rw [List.head?_reverse] at h
  have hne : (l.dropWhile pyWhitespace).reverse.dropWhile pyWhitespace ≠ [] := by
    intro he
    rw [he] at h
    exact Option.noConfusion h
  rw [getLast?_dropWhile _ hne, List.getLast?_reverse] at h
  exact head?_dropWhile_false h

/-- The last character of a stripped string is not whitespace. -/
theorem pyStripList_getLast? (l : List Char) (c : Char)
    (h : (pyStripList l).getLast? = some c) : pyWhitespace c = false := by
  unfold pyStripList at h
  rw [List.getLast?_reverse] at h
  exact head?_dropWhile_false h

/-- Stripping an all-whitespace string yields the empty string. -/
theorem pyStrip_eq_empty (s : String) (h : ∀ c ∈ s.data, pyWhitespace c = true) :
    pyStrip s = "" := by
  unfold pyStrip pyStripList
  have h1 : s.data.dropWhile pyWhitespace = [] := by
    rw [List.dropWhile_eq_nil_iff]
    exact h
  rw [h1]
  rfl

/-! ### Data-URL parsing in `api_continue` (src/app.py lines 435-439) -/

/-- First-occurrence split: models Python `s.split(sep, 1)` yielding two
parts; `none` models the one-element result when `sep` does not occur
(so that tuple unpacking raises `ValueError`). -/
def splitOnFirst (sep : Char) : List Char → Option (List Char × List Char)
  | [] => none
  | c :: rest =>
    if c = sep then some ([], rest)
    else (splitOnFirst sep rest).map (fun p => (c :: p.1, p.2))

/-- Models `header.split(";")[0].split(":")[1]`: `none` is the `IndexError`
raised when the part before the first `;` contains no `:`. -/
def extractMime (header : List Char) : Option (List Char) :=
  match splitOnFirst ':' (header.takeWhile (· != ';')) with
  | none => none
  | some p => some (p.2.takeWhile (· != ':'))

/-- Models the `try` block of `api_continue` (src/app.py lines 435-439):
split the data URL at its first comma, then extract the mime type from the
header; `none` models a caught exception, answered with the 400
`Invalid lastImage data URL` response. -/
def parseDataUrl (s : String) : Option (String × String) :=
  match splitOnFirst ',' s.data with
  | none => none
  | some p =>
    match extractMime p.1 with
    | none => none
    | some m => some (String.mk m, String.mk p.2)

theorem splitOnFirst_append {sep : Char} :
    ∀ xs ys : List Char, sep ∉ xs → splitOnFirst sep (xs ++ sep :: ys) = some (xs, ys)
  | [], ys, _ => by simp [splitOnFirst]
  | x :: xs, ys, h => by
    have hx : ¬x = sep := fun he => h (he ▸ List.mem_cons_self x xs)
    have hxs : sep ∉ xs := fun hm => h (List.mem_cons_of_mem x hm)
    simp only [List.cons_append, splitOnFirst, if_neg hx, List.append_eq,
      splitOnFirst_append xs ys hxs, Option.map_some']

/-! ### Data model (src/app.py `init_db`, lines 57-88) -/

/-- A row of the `users` table. -/
structure UserRow where
  id : Nat
  username : String
  password_hash : String
  is_teacher : Bool
  deriving DecidableEq

/-- A row of the `conversations` table. -/
structure Conversation where
  id : Nat
  user_id : Nat
  prompt : String
  input_image : String
  output_image : String
  model_response_text : Option String
  created_at : String
  deriving DecidableEq

/-- The dict returned by `generate_image_from_sketch`. -/
structure TransformResult where
  image_base64 : String
  image_mime_type : String
  text : String
  deriving DecidableEq

/-- src/app.py lines 134-152: the stub transform.  Echoes the input image
(base64-encoded), keeps the mime type, and templates the text. -/
def generate_image_from_sketch (image_bytes : List Nat) (mime_type : String)
    (prompt : String) : TransformResult :=
  { image_base64 := b64encodeStr image_bytes
    image_mime_type := mime_type
    text := "(Stub) Model response for prompt: " ++ prompt }

/-! ### Registration (src/app.py lines 211-265) -/

/-- The registration form data.  `is_teacher` is the raw
`request.form.get("is_teacher")` value (a checked checkbox submits `"on"`;
an unchecked one submits nothing, i.e. `none`). -/
structure RegForm where
  username : Option String
  password : Option String
  is_teacher : Option String
  deriving DecidableEq

inductive RegisterOutcome where
  /-- flash "Only a teacher can create new accounts." and redirect to login -/
  | forbidden
  /-- flash "Username and password are required." and re-render the form -/
  | missingFields
  /-- `sqlite3.IntegrityError` on the UNIQUE username constraint:
  flash "Username already exists." and re-render the form -/
  | duplicateUsername
  /-- row inserted; redirect to login (`first` = true) or the teacher panel -/
  | created (row : UserRow) (first : Bool)
  deriving DecidableEq

/-- Models SQLite rowid allocation for an insert into `users`. -/
def nextUserId (db : List UserRow) : Nat :=
  (db.foldl (fun m u => Nat.max m u.id) 0) + 1

/-- src/app.py lines 211-265, the POST path of `/register`.  State is passed
explicitly: `db` is the `users` table, `currentUser` the authenticated user
(`none` when unauthenticated) and `hashFn` the (opaque) bcrypt hash.  The
duplicate check models the UNIQUE constraint on `users.username` (BINARY
collation, i.e. exact byte equality), caught as `sqlite3.IntegrityError`. -/
def register (db : List UserRow) (currentUser : Option UserRow) (form : RegForm)
    (hashFn : String → String) : RegisterOutcome × List UserRow :=
  let first_user := db.length == 0
  let allowed := first_user || (match currentUser with
    | some u => u.is_teacher
    | none => false)
  if !allowed then (.forbidden, db)
  else
    let username := pyStrip (form.username.getD "")
    let password := form.password.getD ""
    let is_teacher0 := form.is_teacher == some "on"
    if username == "" || password == "" then (.missingFields, db)
    else
      let is_teacher1 := if first_user then true else is_teacher0
      if db.any (fun u => u.username == username) then (.duplicateUsername, db)
      else
        let row : UserRow :=
          { id := nextUserId db, username := username,
            password_hash := hashFn password, is_teacher := is_teacher1 }
        (.created row first_user, db ++ [row])

/-! ### The JSON API (src/app.py lines 333-481) -/

/-- A sketch upload as seen through `request.files.get("sketch")`:
werkzeug's `FileStorage` is truthy exactly when its filename is non-empty,
and its `mimetype` is `""` when the part declares no content type. -/
structure SketchFile where
  filename : String
  content : List Nat
  mimetype : String
  deriving DecidableEq

/-- `not sketch_file` in the source negates this (werkzeug
`FileStorage.__bool__` is `bool(self.filename)`). -/
def sketchTruthy : Option SketchFile → Bool
  | none => false
  | some f => !(f.filename == "")

/-- The JSON object built by `api_initial` / `api_continue` /
`api_my_history` for one conversation. -/
structure ConvoJson where
  id : Nat
  prompt : String
  inputImage : String
  outputImage : String
  modelResponseText : Option String
  createdAt : String
  deriving DecidableEq

inductive ApiResult where
  /-- a 200 JSON response -/
  | ok (body : ConvoJson)
  /-- `jsonify({"error": msg}), 400` -/
  | badRequest (msg : String)
  /-- an exception escapes the handler (HTTP 500 from Flask) -/
  | crash
  deriving DecidableEq

/-- Models SQLite rowid allocation (`cur.lastrowid`) for an insert into
`conversations`. -/
def nextConvoId (db : List Conversation) : Nat :=
  (db.foldl (fun m c => Nat.max m c.id) 0) + 1

/-- src/app.py lines 365-420: POST `/api/initial`.  `uid` is the
authenticated caller's id (`@login_required` has already passed) and `now`
is the `datetime.utcnow().isoformat()` timestamp of the request. -/
def api_initial (db : List Conversation) (uid : Nat) (sketch : Option SketchFile)
    (promptForm : Option String) (now : String) : ApiResult × List Conversation :=
  let prompt := pyStrip (promptForm.getD "")
  match sketch with
  | none => (.badRequest "Missing sketch file", db)
  | some f =>
    if f.filename == "" then (.badRequest "Missing sketch file", db)
    else if prompt == "" then (.badRequest "Missing prompt", db)
    else
      let image_bytes := f.content
      let mime_type := if f.mimetype == "" then "image/png" else f.mimetype
      let result := generate_image_from_sketch image_bytes mime_type prompt
      let input_data_url := "data:" ++ mime_type ++ ";base64," ++ b64encodeStr image_bytes
      let output_data_url :=
        "data:" ++ result.image_mime_type ++ ";base64," ++ result.image_base64
      let convo_id := nextConvoId db
      let row : Conversation :=
        { id := convo_id, user_id := uid, prompt := prompt,
          input_image := input_data_url, output_image := output_data_url,
          model_response_text := some result.text, created_at := now }
      (.ok { id := convo_id, prompt := prompt, inputImage := input_data_url,
             outputImage := output_data_url, modelResponseText := some result.text,
             createdAt := now },
       db ++ [row])

/-- src/app.py lines 423-481: POST `/api/continue` with JSON body fields
`prompt` and `lastImage`.  `ApiResult.crash` records that the
`base64.b64decode(b64data)` call sits OUTSIDE the `try` block (line 441),
so a raised `binascii.Error` escapes the handler uncaught. -/
def api_continue (db : List Conversation) (uid : Nat) (promptJson : Option String)
    (lastImageJson : Option String) (now : String) : ApiResult × List Conversation :=
  let prompt := pyStrip (promptJson.getD "")
  if prompt == "" then (.badRequest "Missing prompt", db)
  else
    match lastImageJson with
    | none => (.badRequest "Missing lastImage (data URL)", db)
    | some lastUrl =>
      if lastUrl == "" then (.badRequest "Missing lastImage (data URL)", db)
      else
        match parseDataUrl lastUrl with
        | none => (.badRequest "Invalid lastImage data URL", db)
        | some pr =>
          match pyB64Decode pr.2 with
          | none => (.crash, db)
          | some image_bytes =>
            let result := generate_image_from_sketch image_bytes pr.1 prompt
            let output_data_url :=
              "data:" ++ result.image_mime_type ++ ";base64," ++ result.image_base64
            let convo_id := nextConvoId db
            let row : Conversation :=
              { id := convo_id, user_id := uid, prompt := prompt,
                input_image := lastUrl, output_image := output_data_url,
                model_response_text := some result.text, created_at := now }
            (.ok { id := convo_id, prompt := prompt, inputImage := lastUrl,
                   outputImage := output_data_url, modelResponseText := some result.text,
                   createdAt := now },
             db ++ [row])

/-- The JSON dict built per row in `api_my_history`. -/
def toItem (c : Conversation) : ConvoJson :=
  { id := c.id, prompt := c.prompt, inputImage := c.input_image,
    outputImage := c.output_image, modelResponseText := c.model_response_text,
    createdAt := c.created_at }

/-- src/app.py lines 333-362: GET `/api/my_history` — the caller's rows
ordered ascending by `datetime(created_at)`.  On the ISO-8601 UTC
timestamps the application writes, `datetime` ordering coincides with the
lexicographic order of the `created_at` strings, which is how the
`ORDER BY` clause is modelled. -/
def api_my_history (db : List Conversation) (uid : Nat) : List ConvoJson :=
  ((db.filter (fun c => c.user_id == uid)).insertionSort
      (fun a b => a.created_at ≤ b.created_at)).map toItem

/-! ### Claims -/

/-- Claim C7: for every input (image bytes, mime type, prompt) the stub
transform succeeds and returns the input bytes unchanged (base64-encoded),
the same mime type, and the text
`"(Stub) Model response for prompt: "` followed by the prompt. -/
theorem c7_stub_transform (bs : List Nat) (mt p : String) (h : ∀ b ∈ bs, b < 256) :
    pyB64Decode (generate_image_from_sketch bs mt p).image_base64 = some bs ∧
    (generate_image_from_sketch bs mt p).image_mime_type = mt ∧
    (generate_image_from_sketch bs mt p).text = "(Stub) Model response for prompt: " ++ p :=
  ⟨pyB64Decode_b64encodeStr bs h, rfl, rfl⟩

/-- Witness for C7 at the 4 leading PNG magic bytes and prompt `draw a cat`. -/
theorem c7_stub_transform_witness :
    (∀ b ∈ [137, 80, 78, 71], b < 256) ∧
    (pyB64Decode (generate_image_from_sketch [137, 80, 78, 71] "image/png" "draw a cat").image_base64
        = some [137, 80, 78, 71] ∧
      (generate_image_from_sketch [137, 80, 78, 71] "image/png" "draw a cat").image_mime_type
        = "image/png" ∧
      (generate_image_from_sketch [137, 80, 78, 71] "image/png" "draw a cat").text
        = "(Stub) Model response for prompt: " ++ "draw a cat") :=
  ⟨by decide, c7_stub_transform [137, 80, 78, 71] "image/png" "draw a cat" (by decide)⟩

/-- Claim C2: with a nonzero user count, a registration attempt by an
unauthenticated or non-teacher caller yields the forbidden outcome
(flash + redirect to login) and leaves the `users` table unchanged. -/
theorem c2_register_forbidden (db : List UserRow) (cu : Option UserRow) (form : RegForm)
    (hashFn : String → String) (hne : db.length ≠ 0)
    (hcu : cu = none ∨ ∃ u, cu = some u ∧ u.is_teacher = false) :
    register db cu form hashFn = (.forbidden, db) := by
  unfold register
  have h1 : (db.length == 0) = false := by simp [hne]
  rw [h1]
  rcases hcu with rfl | ⟨u, rfl, hu⟩
  · simp
  · simp [hu]

/-- Witness for C2: one stored teacher, unauthenticated caller. -/
theorem c2_register_forbidden_witness :
    ([(⟨1, "alice", "h", true⟩ : UserRow)].length ≠ 0 ∧
      ((none : Option UserRow) = none ∨
        ∃ u, (none : Option UserRow) = some u ∧ u.is_teacher = false)) ∧
    register [⟨1, "alice", "h", true⟩] none ⟨some "bob", some "pw", none⟩ id =
      (.forbidden, [⟨1, "alice", "h", true⟩]) :=
  ⟨⟨by decide, Or.inl rfl⟩,
    c2_register_forbidden _ _ _ _ (by decide) (Or.inl rfl)⟩

/-- Claim C4 (code bug in the source): a `lastImage` whose base64 payload has
wrong padding (here `"QQ"`, two alphabet characters) makes `api_continue`
raise an uncaught `binascii.Error` instead of answering 400:
`base64.b64decode(b64data)` sits outside the `try` block
(src/app.py line 441).  No row is written. -/
theorem c4_continue_crashes_on_bad_padding :
    api_continue [] 7 (some "hi") (some "data:image/png;base64,QQ") "2026-01-01T00:00:00" =
      (.crash, []) := by
  rfl

/-- Claim C5: a registration attempt by an authenticated teacher with a
username already stored (exact, case-sensitive match) fails with the
duplicate-username outcome and adds no row. -/
theorem c5_register_duplicate (db : List UserRow) (form : RegForm)
    (hashFn : String → String) (t : UserRow) (ht : t.is_teacher = true)
    (hmem : ∃ u ∈ db, u.username = pyStrip (form.username.getD ""))
    (hu : pyStrip (form.username.getD "") ≠ "") (hp : form.password.getD "" ≠ "") :
    register db (some t) form hashFn = (.duplicateUsername, db) := by
  unfold register
  have hany : db.any (fun u => u.username == pyStrip (form.username.getD "")) = true := by
    rcases hmem with ⟨u, hu1, hu2⟩
    exact List.any_eq_true.mpr ⟨u, hu1, by simp [hu2]⟩
  simp [ht, hany, hu, hp]

/-- Witness for C5: re-registering the stored username `alice`. -/
theorem c5_register_duplicate_witness :
    ((⟨1, "alice", "h", true⟩ : UserRow).is_teacher = true ∧
      (∃ u ∈ [(⟨1, "alice", "h", true⟩ : UserRow)],
        u.username = pyStrip ((⟨some "alice", some "pw", some "on"⟩ : RegForm).username.getD "")) ∧
      pyStrip ((⟨some "alice", some "pw", some "on"⟩ : RegForm).username.getD "") ≠ "" ∧
      (⟨some "alice", some "pw", some "on"⟩ : RegForm).password.getD "" ≠ "") ∧
    register [⟨1, "alice", "h", true⟩] (some ⟨1, "alice", "h", true⟩)
        ⟨some "alice", some "pw", some "on"⟩ id =
      (.duplicateUsername, [⟨1, "alice", "h", true⟩]) :=
  ⟨⟨rfl, ⟨⟨1, "alice", "h", true⟩, by decide, by decide⟩, by decide, by decide⟩,
    c5_register_duplicate _ _ _ _ rfl ⟨⟨1, "alice", "h", true⟩, by decide, by decide⟩
      (by decide) (by decide)⟩

/-- Claim C1: while the user count is zero, every account `register` creates
has `is_teacher = true` regardless of the submitted role flag; once any
user exists, a successful creation stores exactly the submitted role flag
(`is_teacher` form field equal to `"on"`), never forcing it again. -/
theorem c1_first_user_forced_teacher (db : List UserRow) (cu : Option UserRow)
    (form : RegForm) (hashFn : String → String) :
    (db.length = 0 →
      ∀ row first, (register db cu form hashFn).1 = .created row first →
        row.is_teacher = true) ∧
    (db.length ≠ 0 →
      ∀ row first, (register db cu form hashFn).1 = .created row first →
        row.is_teacher = (form.is_teacher == some "on")) := by
  constructor
  · intro h0 row first hreg
    have hdb : db = [] := List.length_eq_zero.mp h0
    subst hdb
    simp only [register] at hreg
    simp at hreg
    split at hreg
    · simp at hreg
    · simp at hreg
      rw [← hreg.1]
  · intro hne row first hreg
    have h1 : (db.length == 0) = false := by simp [hne]
    simp only [register] at hreg
    rw [h1] at hreg
    simp at hreg
    split at hreg
    · simp at hreg
    · split at hreg
      · simp at hreg
      · split at hreg
        · simp at hreg
        · simp at hreg
          rw [← hreg.1]

/-- Witness for C1: both conjuncts at concrete inputs — first registration
with the role flag absent still yields a teacher; a later registration by
teacher `alice` with the flag absent yields a non-teacher. -/
theorem c1_first_user_forced_teacher_witness :
    (([] : List UserRow).length = 0 ∧
      (register [] none ⟨some "bob", some "pw", none⟩ id).1 =
        .created ⟨1, "bob", "pw", true⟩ true ∧
      (⟨1, "bob", "pw", true⟩ : UserRow).is_teacher = true) ∧
    ([(⟨1, "alice", "h", true⟩ : UserRow)].length ≠ 0 ∧
      (register [⟨1, "alice", "h", true⟩] (some ⟨1, "alice", "h", true⟩)
          ⟨some "bob", some "pw", none⟩ id).1 =
        .created ⟨2, "bob", "pw", false⟩ false ∧
      (⟨2, "bob", "pw", false⟩ : UserRow).is_teacher =
        ((⟨some "bob", some "pw", none⟩ : RegForm).is_teacher == some "on")) :=
  ⟨⟨rfl, by decide,
      (c1_first_user_forced_teacher [] none ⟨some "bob", some "pw", none⟩ id).1 rfl
        ⟨1, "bob", "pw", true⟩ true (by decide)⟩,
    ⟨by decide, by decide,
      (c1_first_user_forced_teacher [⟨1, "alice", "h", true⟩] (some ⟨1, "alice", "h", true⟩)
          ⟨some "bob", some "pw", none⟩ id).2 (by decide)
        ⟨2, "bob", "pw", false⟩ false (by decide)⟩⟩

theorem dataUrl_split (m : String) (bs : List Nat) (hm : ',' ∉ m.data) :
    splitOnFirst ',' ("data:" ++ m ++ ";base64," ++ b64encodeStr bs).data =
      some (("data:" ++ m ++ ";base64").data, (b64encodeStr bs).data) := by
  have hdata : ("data:" ++ m ++ ";base64," ++ b64encodeStr bs).data =
      ("data:" ++ m ++ ";base64").data ++ ',' :: (b64encodeStr bs).data := by
    simp only [String.data_append]
    simp [List.append_assoc]
  rw [hdata]
  apply splitOnFirst_append
  intro hmem
  simp only [String.data_append, List.mem_append] at hmem
  rcases hmem with (h1 | h2) | h3
  · exact absurd h1 (by decide)
  · exact hm h2
  · exact absurd h3 (by decide)

theorem extractMime_dataUrl (m : String) :
    ∃ mm, extractMime ("data:" ++ m ++ ";base64").data = some mm := by
  have hdata : ("data:" ++ m ++ ";base64").data =
      'd' :: 'a' :: 't' :: 'a' :: ':' :: (m.data ++ ";base64".data) := by
    simp only [String.data_append]
    rfl
  rw [hdata]
  simp +decide [extractMime, List.takeWhile_cons, splitOnFirst]

/-- Splitting a well-formed constructed data URL at its first comma and
extracting a mime type succeeds, and the payload after the comma is exactly
the base64 text, provided the mime type contains no comma (every RFC 2045
mime type: `,` is a `tspecial`, illegal in type tokens). -/
theorem parseDataUrl_constructed (m : String) (bs : List Nat) (hm : ',' ∉ m.data) :
    ∃ mime, parseDataUrl ("data:" ++ m ++ ";base64," ++ b64encodeStr bs) =
      some (mime, b64encodeStr bs) := by
  obtain ⟨mm, hmm⟩ := extractMime_dataUrl m
  refine ⟨String.mk mm, ?_⟩
  unfold parseDataUrl
  rw [dataUrl_split m bs hm]
  simp only [hmm]

/-- The row `api_initial` inserts on its success path. -/
def initialRow (db : List Conversation) (uid : Nat) (f : SketchFile)
    (promptForm : Option String) (now : String) : Conversation :=
  { id := nextConvoId db, user_id := uid, prompt := pyStrip (promptForm.getD ""),
    input_image := "data:" ++ (if f.mimetype == "" then "image/png" else f.mimetype) ++
      ";base64," ++ b64encodeStr f.content,
    output_image := "data:" ++ (if f.mimetype == "" then "image/png" else f.mimetype) ++
      ";base64," ++ b64encodeStr f.content,
    model_response_text := some ("(Stub) Model response for prompt: " ++
      pyStrip (promptForm.getD "")),
    created_at := now }

/-- Success path of `api_initial`: with a truthy sketch and a non-empty
stripped prompt the handler inserts exactly `initialRow` and returns its
JSON projection. -/
theorem api_initial_ok (db : List Conversation) (uid : Nat) (f : SketchFile)
    (promptForm : Option String) (now : String)
    (hf : (f.filename == "") = false)
    (hp : (pyStrip (promptForm.getD "") == "") = false) :
    api_initial db uid (some f) promptForm now =
      (.ok (toItem (initialRow db uid f promptForm now)),
       db ++ [initialRow db uid f promptForm now]) := by
  unfold api_initial generate_image_from_sketch toItem initialRow
  simp only [hf, hp, Bool.false_eq_true, if_false]

/-- Success path of `api_continue`: with a non-empty stripped prompt, a
non-empty `lastImage` that parses, and a payload that base64-decodes, the
handler inserts a row whose `input_image` is the unmodified `lastImage`. -/
theorem api_continue_ok (db : List Conversation) (uid : Nat) (p2 lastUrl now mime b64 : String)
    (bytes : List Nat)
    (hp : (pyStrip p2 == "") = false)
    (hne : (lastUrl == "") = false)
    (hparse : parseDataUrl lastUrl = some (mime, b64))
    (hdec : pyB64Decode b64 = some bytes) :
    api_continue db uid (some p2) (some lastUrl) now =
      (.ok { id := nextConvoId db, prompt := pyStrip p2, inputImage := lastUrl,
             outputImage := "data:" ++ mime ++ ";base64," ++ b64encodeStr bytes,
             modelResponseText := some ("(Stub) Model response for prompt: " ++ pyStrip p2),
             createdAt := now },
       db ++ [{ id := nextConvoId db, user_id := uid, prompt := pyStrip p2,
                input_image := lastUrl,
                output_image := "data:" ++ mime ++ ";base64," ++ b64encodeStr bytes,
                model_response_text := some ("(Stub) Model response for prompt: " ++ pyStrip p2),
                created_at := now }]) := by
  unfold api_continue generate_image_from_sketch
  simp only [Option.getD_some, hp, hne, hparse, hdec, Bool.false_eq_true, if_false]

/-- Claim C8: `/api/initial` answers 400 `Missing sketch file` when the
sketch is missing or empty (werkzeug falsy: absent or empty filename) and
400 `Missing prompt` when the stripped prompt is empty, in that order, in
both cases leaving the `conversations` table unchanged; otherwise it
returns 200 with the full record `{id, prompt, inputImage, outputImage,
modelResponseText, createdAt}` and appends exactly one matching row. -/
theorem c8_api_initial_validation (db : List Conversation) (uid : Nat)
    (sketch : Option SketchFile) (promptForm : Option String) (now : String) :
    (sketchTruthy sketch = false →
      api_initial db uid sketch promptForm now = (.badRequest "Missing sketch file", db)) ∧
    (sketchTruthy sketch = true → pyStrip (promptForm.getD "") = "" →
      api_initial db uid sketch promptForm now = (.badRequest "Missing prompt", db)) ∧
    (sketchTruthy sketch = true → pyStrip (promptForm.getD "") ≠ "" →
      ∃ row, api_initial db uid sketch promptForm now = (.ok (toItem row), db ++ [row]) ∧
        row.user_id = uid ∧ row.prompt = pyStrip (promptForm.getD "") ∧
        row.created_at = now) := by
  refine ⟨?_, ?_, ?_⟩
  · intro hfalsy
    cases sketch with
    | none => rfl
    | some f =>
      have hf : (f.filename == "") = true := by
        unfold sketchTruthy at hfalsy
        simpa using hfalsy
      unfold api_initial
      simp only [hf, if_true]
  · intro htru hp
    cases sketch with
    | none => simp [sketchTruthy] at htru
    | some f =>
      have hf : (f.filename == "") = false := by
        unfold sketchTruthy at htru
        simpa using htru
      unfold api_initial
      simp only [hf, Bool.false_eq_true, if_false, hp]
      simp
  · intro htru hp
    cases sketch with
    | none => simp [sketchTruthy] at htru
    | some f =>
      have hf : (f.filename == "") = false := by
        unfold sketchTruthy at htru
        simpa using htru
      have hpb : (pyStrip (promptForm.getD "") == "") = false := by
        simpa using hp
      exact ⟨initialRow db uid f promptForm now,
        api_initial_ok db uid f promptForm now hf hpb, rfl, rfl, rfl⟩

/-- Witness for C8: all three branches at concrete inputs. -/
theorem c8_api_initial_validation_witness :
    (sketchTruthy none = false ∧
      api_initial [] 7 none (some "hi") "t" = (.badRequest "Missing sketch file", [])) ∧
    (sketchTruthy (some ⟨"a.png", [1], "image/png"⟩) = true ∧ pyStrip ((some "  ").getD "") = "" ∧
      api_initial [] 7 (some ⟨"a.png", [1], "image/png"⟩) (some "  ") "t" =
        (.badRequest "Missing prompt", [])) ∧
    (sketchTruthy (some ⟨"a.png", [1], "image/png"⟩) = true ∧ pyStrip ((some "hi").getD "") ≠ "" ∧
      ∃ row, api_initial [] 7 (some ⟨"a.png", [1], "image/png"⟩) (some "hi") "t" =
          (.ok (toItem row), [] ++ [row]) ∧
        row.user_id = 7 ∧ row.prompt = pyStrip ((some "hi").getD "") ∧ row.created_at = "t") :=
  ⟨⟨rfl, (c8_api_initial_validation [] 7 none (some "hi") "t").1 rfl⟩,
    ⟨rfl, by decide,
      (c8_api_initial_validation [] 7 (some ⟨"a.png", [1], "image/png"⟩) (some "  ") "t").2.1
        rfl (by decide)⟩,
    ⟨rfl, by decide,
      (c8_api_initial_validation [] 7 (some ⟨"a.png", [1], "image/png"⟩) (some "hi") "t").2.2
        rfl (by decide)⟩⟩

/-- Claim C9: when the uploaded sketch declares no mime type (werkzeug
`mimetype` is `""`), `"image/png"` is the mime type used in the stored and
returned `inputImage` data URL and in the `generate_image_from_sketch`
call, hence (stub transform echoing the mime type) also in `outputImage`. -/
theorem c9_default_mime (db : List Conversation) (uid : Nat) (f : SketchFile)
    (promptForm : Option String) (now : String)
    (hf : f.filename ≠ "") (hm : f.mimetype = "")
    (hp : pyStrip (promptForm.getD "") ≠ "") :
    ∃ row, api_initial db uid (some f) promptForm now = (.ok (toItem row), db ++ [row]) ∧
      row.input_image = "data:image/png;base64," ++ b64encodeStr f.content ∧
      row.output_image = "data:image/png;base64," ++ b64encodeStr f.content ∧
      generate_image_from_sketch f.content
          (if f.mimetype == "" then "image/png" else f.mimetype) (pyStrip (promptForm.getD ""))
        = generate_image_from_sketch f.content "image/png" (pyStrip (promptForm.getD "")) := by
  have hfb : (f.filename == "") = false := by simpa using hf
  have hpb : (pyStrip (promptForm.getD "") == "") = false := by simpa using hp
  refine ⟨initialRow db uid f promptForm now,
    api_initial_ok db uid f promptForm now hfb hpb, ?_, ?_, ?_⟩
  · unfold initialRow
    simp [hm]
  · unfold initialRow
    simp [hm]
  · simp [hm]

/-- Witness for C9: a named upload with empty mimetype and one content byte. -/
theorem c9_default_mime_witness :
    ((⟨"a.png", [1], ""⟩ : SketchFile).filename ≠ "" ∧
      (⟨"a.png", [1], ""⟩ : SketchFile).mimetype = "" ∧
      pyStrip ((some "hi").getD "") ≠ "") ∧
    (∃ row, api_initial [] 7 (some ⟨"a.png", [1], ""⟩) (some "hi") "t" =
        (.ok (toItem row), [] ++ [row]) ∧
      row.input_image = "data:image/png;base64," ++ b64encodeStr [1] ∧
      row.output_image = "data:image/png;base64," ++ b64encodeStr [1] ∧
      generate_image_from_sketch [1]
          (if (⟨"a.png", [1], ""⟩ : SketchFile).mimetype == "" then "image/png"
            else (⟨"a.png", [1], ""⟩ : SketchFile).mimetype) (pyStrip ((some "hi").getD ""))
        = generate_image_from_sketch [1] "image/png" (pyStrip ((some "hi").getD ""))) :=
  ⟨⟨by decide, rfl, by decide⟩,
    c9_default_mime [] 7 ⟨"a.png", [1], ""⟩ (some "hi") "t" (by decide) rfl (by decide)⟩

theorem api_initial_ok_inv (db : List Conversation) (uid : Nat) (sketch : Option SketchFile)
    (promptForm : Option String) (now : String) (body : ConvoJson) (db2 : List Conversation)
    (hreg : api_initial db uid sketch promptForm now = (.ok body, db2)) :
    ∃ f, sketch = some f ∧ body = toItem (initialRow db uid f promptForm now) ∧
      db2 = db ++ [initialRow db uid f promptForm now] := by
  cases sketch with
  | none =>
    unfold api_initial at hreg
    exact absurd hreg (by simp)
  | some f =>
    unfold api_initial at hreg
    by_cases hf : (f.filename == "") = true
    · simp only [hf, if_true] at hreg
      exact absurd hreg (by simp)
    · have hfb : (f.filename == "") = false := by simpa using hf
      by_cases hp : (pyStrip (promptForm.getD "") == "") = true
      · simp only [hfb, Bool.false_eq_true, if_false, hp, if_true] at hreg
        exact absurd hreg (by simp)
      · have hpb : (pyStrip (promptForm.getD "") == "") = false := by simpa using hp
        simp only [hfb, hpb, Bool.false_eq_true, if_false, Prod.mk.injEq,
          ApiResult.ok.injEq] at hreg
        exact ⟨f, rfl, hreg.1.symm, hreg.2.symm⟩

theorem api_continue_ok_inv (db : List Conversation) (uid : Nat) (pj lj : Option String)
    (now : String) (body : ConvoJson) (db2 : List Conversation)
    (hreg : api_continue db uid pj lj now = (.ok body, db2)) :
    ∃ lastUrl mime b64 bytes,
      lj = some lastUrl ∧ parseDataUrl lastUrl = some (mime, b64) ∧
      pyB64Decode b64 = some bytes ∧
      body = { id := nextConvoId db, prompt := pyStrip (pj.getD ""), inputImage := lastUrl,
               outputImage := "data:" ++ mime ++ ";base64," ++ b64encodeStr bytes,
               modelResponseText :=
                 some ("(Stub) Model response for prompt: " ++ pyStrip (pj.getD "")),
               createdAt := now } ∧
      db2 = db ++ [⟨nextConvoId db, uid, pyStrip (pj.getD ""), lastUrl,
        "data:" ++ mime ++ ";base64," ++ b64encodeStr bytes,
        some ("(Stub) Model response for prompt: " ++ pyStrip (pj.getD "")), now⟩] := by
  unfold api_continue at hreg
  by_cases hp : (pyStrip (pj.getD "") == "") = true
  · simp only [hp, if_true] at hreg
    exact absurd hreg (by simp)
  · have hpb : (pyStrip (pj.getD "") == "") = false := by simpa using hp
    simp only [hpb, Bool.false_eq_true, if_false] at hreg
    cases lj with
    | none => exact absurd hreg (by simp)
    | some lastUrl =>
      by_cases hu : (lastUrl == "") = true
      · simp only [hu, if_true] at hreg
        exact absurd hreg (by simp)
      · have hub : (lastUrl == "") = false := by simpa using hu
        simp only [hub, Bool.false_eq_true, if_false] at hreg
        cases hparse : parseDataUrl lastUrl with
        | none =>
          simp only [hparse] at hreg
          exact absurd hreg (by simp)
        | some pr =>
          simp only [hparse] at hreg
          cases hdec : pyB64Decode pr.2 with
          | none =>
            simp only [hdec] at hreg
            exact absurd hreg (by simp)
          | some bytes =>
            simp only [hdec, generate_image_from_sketch, Prod.mk.injEq,
              ApiResult.ok.injEq] at hreg
            exact ⟨lastUrl, pr.1, pr.2, bytes, rfl, by rw [hparse], hdec,
              hreg.1.symm, hreg.2.symm⟩

/-- Claim C10: both API endpoints strip the prompt before validation and
persistence: an all-whitespace prompt is answered with the 400
missing-prompt error (for `/api/initial` once the sketch guard, which runs
first, passes; `/api/continue` checks the prompt first), and whenever a 200
response is produced, the returned and the stored prompt are the stripped
prompt, which carries no leading or trailing whitespace. -/
theorem c10_prompt_stripped (db : List Conversation) (uid : Nat) (sketch : Option SketchFile)
    (raw : String) (lastImage : Option String) (now : String) :
    ((∀ c ∈ raw.data, pyWhitespace c = true) → sketchTruthy sketch = true →
      api_initial db uid sketch (some raw) now = (.badRequest "Missing prompt", db)) ∧
    ((∀ c ∈ raw.data, pyWhitespace c = true) →
      api_continue db uid (some raw) lastImage now = (.badRequest "Missing prompt", db)) ∧
    (∀ body db2, api_initial db uid sketch (some raw) now = (.ok body, db2) →
      body.prompt = pyStrip raw ∧
      (∀ c, body.prompt.data.head? = some c → pyWhitespace c = false) ∧
      (∀ c, body.prompt.data.getLast? = some c → pyWhitespace c = false) ∧
      ∃ row, db2 = db ++ [row] ∧ row.prompt = pyStrip raw) ∧
    (∀ body db2, api_continue db uid (some raw) lastImage now = (.ok body, db2) →
      body.prompt = pyStrip raw ∧
      (∀ c, body.prompt.data.head? = some c → pyWhitespace c = false) ∧
      (∀ c, body.prompt.data.getLast? = some c → pyWhitespace c = false) ∧
      ∃ row, db2 = db ++ [row] ∧ row.prompt = pyStrip raw) := by
  refine ⟨?_, ?_, ?_, ?_⟩
  · intro hws htru
    have hstrip : pyStrip raw = "" := pyStrip_eq_empty raw hws
    cases sketch with
    | none => simp [sketchTruthy] at htru
    | some f =>
      have hfb : (f.filename == "") = false := by
        unfold sketchTruthy at htru
        simpa using htru
      unfold api_initial
      simp [hfb, hstrip]
  · intro hws
    have hstrip : pyStrip raw = "" := pyStrip_eq_empty raw hws
    unfold api_continue
    simp [hstrip]
  · intro body db2 hreg
    obtain ⟨f, hs, hbody, hdb2⟩ := api_initial_ok_inv _ _ _ _ _ _ _ hreg
    subst hbody
    refine ⟨rfl, ?_, ?_, initialRow db uid f (some raw) now, hdb2, rfl⟩
    · intro c hc
      exact pyStripList_head? raw.data c hc
    · intro c hc
      exact pyStripList_getLast? raw.data c hc
  · intro body db2 hreg
    obtain ⟨lastUrl, mime, b64, bytes, hlj, hparse, hdec, hbody, hdb2⟩ :=
      api_continue_ok_inv _ _ _ _ _ _ _ hreg
    subst hbody
    refine ⟨rfl, ?_, ?_, _, hdb2, rfl⟩
    · intro c hc
      exact pyStripList_head? raw.data c hc
    · intro c hc
      exact pyStripList_getLast? raw.data c hc

/-- Witness for C10: the theorem applied twice — at the all-whitespace
prompt `" "` for the two rejection conjuncts, and at `" hi "` for the two
success conjuncts. -/
theorem c10_prompt_stripped_witness :
    ((∀ c ∈ (" " : String).data, pyWhitespace c = true) ∧
      sketchTruthy (some ⟨"a.png", [1], "image/png"⟩) = true ∧
      api_initial [] 7 (some ⟨"a.png", [1], "image/png"⟩) (some " ") "t" =
        (.badRequest "Missing prompt", []) ∧
      api_continue [] 7 (some " ") (some "data:image/png;base64,AQ==") "t" =
        (.badRequest "Missing prompt", [])) ∧
    (api_initial [] 7 (some ⟨"a.png", [1], "image/png"⟩) (some " hi ") "t" =
        (.ok (toItem (initialRow [] 7 ⟨"a.png", [1], "image/png"⟩ (some " hi ") "t")),
         [] ++ [initialRow [] 7 ⟨"a.png", [1], "image/png"⟩ (some " hi ") "t"]) ∧
      (toItem (initialRow [] 7 ⟨"a.png", [1], "image/png"⟩ (some " hi ") "t")).prompt =
        pyStrip " hi " ∧
      (∀ c, (toItem (initialRow [] 7 ⟨"a.png", [1], "image/png"⟩
          (some " hi ") "t")).prompt.data.head? = some c → pyWhitespace c = false) ∧
      (∀ c, (toItem (initialRow [] 7 ⟨"a.png", [1], "image/png"⟩
          (some " hi ") "t")).prompt.data.getLast? = some c → pyWhitespace c = false) ∧
      ∃ row, [] ++ [initialRow [] 7 ⟨"a.png", [1], "image/png"⟩ (some " hi ") "t"] =
          [] ++ [row] ∧ row.prompt = pyStrip " hi ") :=
  ⟨⟨by decide, rfl,
      (c10_prompt_stripped [] 7 (some ⟨"a.png", [1], "image/png"⟩) " "
          (some "data:image/png;base64,AQ==") "t").1 (by decide) rfl,
      (c10_prompt_stripped [] 7 (some ⟨"a.png", [1], "image/png"⟩) " "
          (some "data:image/png;base64,AQ==") "t").2.1 (by decide)⟩,
    ⟨by decide,
      ((c10_prompt_stripped [] 7 (some ⟨"a.png", [1], "image/png"⟩) " hi "
          (some "data:image/png;base64,AQ==") "t").2.2.1 (toItem (initialRow [] 7 ⟨"a.png", [1], "image/png"⟩ (some " hi ") "t"))
          ([] ++ [initialRow [] 7 ⟨"a.png", [1], "image/png"⟩ (some " hi ") "t"]) (by decide)).1,
      ((c10_prompt_stripped [] 7 (some ⟨"a.png", [1], "image/png"⟩) " hi "
          (some "data:image/png;base64,AQ==") "t").2.2.1 (toItem (initialRow [] 7 ⟨"a.png", [1], "image/png"⟩ (some " hi ") "t"))
          ([] ++ [initialRow [] 7 ⟨"a.png", [1], "image/png"⟩ (some " hi ") "t"]) (by decide)).2.1,
      ((c10_prompt_stripped [] 7 (some ⟨"a.png", [1], "image/png"⟩) " hi "
          (some "data:image/png;base64,AQ==") "t").2.2.1 (toItem (initialRow [] 7 ⟨"a.png", [1], "image/png"⟩ (some " hi ") "t"))
          ([] ++ [initialRow [] 7 ⟨"a.png", [1], "image/png"⟩ (some " hi ") "t"]) (by decide)).2.2.1,
      ((c10_prompt_stripped [] 7 (some ⟨"a.png", [1], "image/png"⟩) " hi "
          (some "data:image/png;base64,AQ==") "t").2.2.1 (toItem (initialRow [] 7 ⟨"a.png", [1], "image/png"⟩ (some " hi ") "t"))
          ([] ++ [initialRow [] 7 ⟨"a.png", [1], "image/png"⟩ (some " hi ") "t"]) (by decide)).2.2.2⟩⟩

/-- Claim C3: a successful start (`api_initial`) followed by a continue
(`api_continue`) whose `lastImage` is the `outputImage` the start call
returned: the data-URL decode performed inside `continue` recovers exactly
the byte content produced by the first call's (stub) transform — the sketch
bytes — and the newly inserted row stores the prior data URL string itself,
unmodified (not re-encoded), as its input image.  Side condition: the
declared mime type contains no comma, true of every RFC 2045 mime type. -/
theorem c3_roundtrip (db : List Conversation) (uid : Nat) (f : SketchFile)
    (p1 p2 now1 now2 : String)
    (hb : ∀ b ∈ f.content, b < 256) (hm : ',' ∉ f.mimetype.data)
    (hp2 : pyStrip p2 ≠ "") :
    ∀ body1 db1, api_initial db uid (some f) (some p1) now1 = (.ok body1, db1) →
      (∃ mime b64, parseDataUrl body1.outputImage = some (mime, b64) ∧
        pyB64Decode b64 = some f.content) ∧
      ∃ body2 row2, api_continue db1 uid (some p2) (some body1.outputImage) now2 =
          (.ok body2, db1 ++ [row2]) ∧
        row2.input_image = body1.outputImage ∧ body2.inputImage = body1.outputImage := by
  intro body1 db1 hreg
  obtain ⟨f2, hf2, hbody, hdb1⟩ := api_initial_ok_inv _ _ _ _ _ _ _ hreg
  injection hf2 with hf2e
  subst hf2e
  subst hbody
  have hmime : ',' ∉ (if (f.mimetype == "") = true then "image/png" else f.mimetype).data := by
    by_cases hc : (f.mimetype == "") = true
    · rw [if_pos hc]
      decide
    · rw [if_neg hc]
      exact hm
  obtain ⟨mime, hparse⟩ :=
    parseDataUrl_constructed (if (f.mimetype == "") = true then "image/png" else f.mimetype)
      f.content hmime
  have hpb : (pyStrip p2 == "") = false := by simpa using hp2
  have hub : ((("data:" ++ (if (f.mimetype == "") = true then "image/png" else f.mimetype) ++
      ";base64," ++ b64encodeStr f.content) : String) == "") = false := by
    rw [beq_eq_false_iff_ne]
    intro he
    have hd := congrArg String.data he
    simp [String.data_append] at hd
  refine ⟨⟨mime, b64encodeStr f.content, hparse, pyB64Decode_b64encodeStr f.content hb⟩,
    ?_⟩
  exact ⟨_, _,
    api_continue_ok db1 uid p2 _ now2 mime (b64encodeStr f.content) f.content hpb hub hparse
      (pyB64Decode_b64encodeStr f.content hb),
    rfl, rfl⟩

/-- Witness for C3: a 4-byte PNG-magic sketch, mime `image/png`, prompts
`draw a cat` then `again`. -/
theorem c3_roundtrip_witness :
    ((∀ b ∈ (⟨"a.png", [137, 80, 78, 71], "image/png"⟩ : SketchFile).content, b < 256) ∧
      ',' ∉ (⟨"a.png", [137, 80, 78, 71], "image/png"⟩ : SketchFile).mimetype.data ∧
      pyStrip "again" ≠ "" ∧
      api_initial [] 7 (some ⟨"a.png", [137, 80, 78, 71], "image/png"⟩) (some "draw a cat")
          "t1" =
        (.ok (toItem (initialRow [] 7 ⟨"a.png", [137, 80, 78, 71], "image/png"⟩
            (some "draw a cat") "t1")),
         [] ++ [initialRow [] 7 ⟨"a.png", [137, 80, 78, 71], "image/png"⟩
            (some "draw a cat") "t1"])) ∧
    ((∃ mime b64,
        parseDataUrl (toItem (initialRow [] 7 ⟨"a.png", [137, 80, 78, 71], "image/png"⟩
            (some "draw a cat") "t1")).outputImage = some (mime, b64) ∧
        pyB64Decode b64 = some [137, 80, 78, 71]) ∧
      ∃ body2 row2,
        api_continue ([] ++ [initialRow [] 7 ⟨"a.png", [137, 80, 78, 71], "image/png"⟩
            (some "draw a cat") "t1"]) 7 (some "again")
          (some (toItem (initialRow [] 7 ⟨"a.png", [137, 80, 78, 71], "image/png"⟩
            (some "draw a cat") "t1")).outputImage) "t2" =
          (.ok body2,
           ([] ++ [initialRow [] 7 ⟨"a.png", [137, 80, 78, 71], "image/png"⟩
              (some "draw a cat") "t1"]) ++ [row2]) ∧
        row2.input_image = (toItem (initialRow [] 7 ⟨"a.png", [137, 80, 78, 71], "image/png"⟩
            (some "draw a cat") "t1")).outputImage ∧
        body2.inputImage = (toItem (initialRow [] 7 ⟨"a.png", [137, 80, 78, 71], "image/png"⟩
            (some "draw a cat") "t1")).outputImage) :=
  ⟨⟨by decide, by decide, by decide, by decide⟩,
    c3_roundtrip [] 7 ⟨"a.png", [137, 80, 78, 71], "image/png"⟩ "draw a cat" "again" "t1" "t2"
      (by decide) (by decide) (by decide)
      (toItem (initialRow [] 7 ⟨"a.png", [137, 80, 78, 71], "image/png"⟩
        (some "draw a cat") "t1"))
      ([] ++ [initialRow [] 7 ⟨"a.png", [137, 80, 78, 71], "image/png"⟩
        (some "draw a cat") "t1"])
      (by decide)⟩

/-- Claim C6: `api_my_history` returns exactly the rows owned by the
requesting user — a permutation of the owner-filtered table mapped to its
JSON shape, and every returned item stems from a row of that user, so never
another user's row — ordered ascending by creation time. -/
theorem c6_my_history_owner_sorted (db : List Conversation) (uid : Nat) :
    (api_my_history db uid).Perm ((db.filter (fun c => c.user_id == uid)).map toItem) ∧
    List.Pairwise (fun a b : ConvoJson => a.createdAt ≤ b.createdAt) (api_my_history db uid) ∧
    ∀ item ∈ api_my_history db uid, ∃ c, c ∈ db ∧ c.user_id = uid ∧ toItem c = item := by
  have hperm : ((db.filter (fun c => c.user_id == uid)).insertionSort
      (fun a b => a.created_at ≤ b.created_at)).Perm
        (db.filter (fun c => c.user_id == uid)) :=
    List.perm_insertionSort _ _
  refine ⟨?_, ?_, ?_⟩
  · exact hperm.map toItem
  · have hs : List.Sorted (fun a b : Conversation => a.created_at ≤ b.created_at)
        ((db.filter (fun c => c.user_id == uid)).insertionSort
          (fun a b => a.created_at ≤ b.created_at)) := by
      haveI : IsTotal Conversation (fun a b => a.created_at ≤ b.created_at) :=
        ⟨fun a b => le_total a.created_at b.created_at⟩
      haveI : IsTrans Conversation (fun a b => a.created_at ≤ b.created_at) :=
        ⟨fun a b c hab hbc => le_trans hab hbc⟩
      exact List.sorted_insertionSort _ _
    exact List.Pairwise.map toItem (fun a b h => h) hs
  · intro item hitem
    unfold api_my_history at hitem
    obtain ⟨c, hc, rfl⟩ := List.mem_map.mp hitem
    have hcf : c ∈ db.filter (fun c => c.user_id == uid) := hperm.subset hc
    rw [List.mem_filter] at hcf
    exact ⟨c, hcf.1, by simpa using hcf.2, rfl⟩
